import Mathlib

/-!
Shallow embedding of the core of the lemmy-image-scraper repository:
the URL classifier and media locator (internal/scraper/scraper.go),
the downloader with content-hash deduplication (internal/downloader),
the database access layer as a pure state (internal/database), and the
ingestion controller loop (scrapePosts / scrapeWithPagination).

Go strings are modelled by Lean `String`, Go byte slices by `List Nat`,
Go `int`/`int64` counters by `Nat` where the source only ever increments
or zeroes them, and by `Int` where subtraction or comparison with
configured limits occurs.  Network and database side effects are
modelled by explicit oracles (`fetch`, `ex`, `dl`) and by explicit
state passing (`MediaStoreState`).
-/

namespace LemmyScraper

/-! ## String helpers: models of the Go `strings` and `path/filepath` functions used -/

/-- Model of `strings.Contains s pat`: `pat` occurs as a contiguous substring of `s`. -/
def strContains (s pat : String) : Bool :=
  s.data.tails.any (fun t => pat.data.isPrefixOf t)

/-- Model of `strings.HasSuffix s suf`. -/
def strHasSuffix (s suf : String) : Bool :=
  suf.data.isSuffixOf s.data

/-- Model of `strings.ToLower` (character-wise; URLs and content types in this
program are ASCII, where Go and Lean lowercase coincide). -/
def toLowerStr (s : String) : String := ⟨s.data.map Char.toLower⟩

/-- The longest prefix of `l` strictly before the first occurrence of `c`;
models `strings.Split(s, c)[0]` for a one-character separator. -/
def takeUntilChar (c : Char) : List Char → List Char
  | [] => []
  | x :: r => if x = c then [] else x :: takeUntilChar c r

/-- Model of Go `filepath.Base`: the last element of the path after stripping
trailing slashes; "." for the empty path, "/" for an all-slash path. -/
def filepathBase (p : String) : String :=
  if p = "" then "."
  else
    let l2 := (p.data.reverse.dropWhile (fun c => c = '/')).reverse
    if l2 = [] then "/"
    else ⟨(l2.reverse.takeWhile (fun c => c ≠ '/')).reverse⟩

/-- Model of Go `filepath.Ext`: the suffix of the final path element starting at
its final dot, or "" when the final element has no dot. -/
def filepathExt (p : String) : String :=
  let last := (p.data.reverse.takeWhile (fun c => c ≠ '/')).reverse
  if last.contains '.' then ⟨'.' :: (last.reverse.takeWhile (fun c => c ≠ '.')).reverse⟩
  else ""

/-! ## Data model (pkg/models/models.go), restricted to the fields the core reads -/

/-- Fields of `models.Post` read by the core: id, title (`Name`), the three URL
fields, and the creation timestamp (kept opaque as a string). -/
structure Post where
  id : Int
  name : String
  url : String
  thumbnailURL : String
  embedVideoURL : String
  published : String
deriving DecidableEq, Repr

/-- Fields of `models.Community` read by the core. -/
structure Community where
  id : Int
  name : String
deriving DecidableEq, Repr

/-- Fields of `models.Person` read by the core. -/
structure Person where
  id : Int
  name : String
deriving DecidableEq, Repr

/-- Fields of `models.PostAggregates` read by the core. -/
structure PostAggregates where
  score : Int
deriving DecidableEq, Repr

/-- Model of `models.PostView`. -/
structure PostView where
  post : Post
  creator : Person
  community : Community
  counts : PostAggregates
deriving DecidableEq, Repr

/-- Model of `models.ScrapedMedia` (one row of the `scraped_media` table).
Timestamps are opaque strings. -/
structure ScrapedMedia where
  id : Int
  postId : Int
  postTitle : String
  communityName : String
  communityId : Int
  authorName : String
  authorId : Int
  mediaURL : String
  mediaHash : String
  fileName : String
  filePath : String
  fileSize : Int
  mediaType : String
  postURL : String
  postScore : Int
  postCreated : String
  downloadedAt : String
deriving DecidableEq, Repr

/-! ## URL classifier (scraper.go `isMediaURL`) -/

/-- The image-extension allow list of `isMediaURL`. -/
def imageExts : List String := [".jpg", ".jpeg", ".png", ".gif", ".webp", ".bmp", ".svg"]

/-- The video-extension allow list of `isMediaURL`. -/
def videoExts : List String := [".mp4", ".webm", ".mov", ".avi", ".mkv", ".m4v", ".flv"]

/-- The media-hosting domain allow list of `isMediaURL`. -/
def mediaHosts : List String :=
  ["i.imgur.com", "i.redd.it", "v.redd.it", "preview.redd.it",
   "external-preview.redd.it", "lemmy.world/pictrs", "lemmy.ml/pictrs", "pictrs"]

/-- Model of scraper.go `isMediaURL`: lowercase the URL, then accept when any
image extension, video extension, or known media host occurs as a substring. -/
def isMediaURL (url : String) : Bool :=
  let u := toLowerStr url
  imageExts.any (fun e => strContains u e) ||
  videoExts.any (fun e => strContains u e) ||
  mediaHosts.any (fun h => strContains u h)

/-! ## Media locator (scraper.go `extractMediaURLs`) -/

/-- Model of scraper.go `extractMediaURLs`: primary URL first (with the embedded
video URL additionally tested when the primary passes), else the embedded video
URL alone, else the thumbnail alone, else nothing. -/
def extractMediaURLs (postView : PostView) : List String :=
  if postView.post.url != "" && isMediaURL postView.post.url then
    if postView.post.embedVideoURL != "" && isMediaURL postView.post.embedVideoURL then
      [postView.post.url, postView.post.embedVideoURL]
    else
      [postView.post.url]
  else if postView.post.embedVideoURL != "" && isMediaURL postView.post.embedVideoURL then
    [postView.post.embedVideoURL]
  else if postView.post.thumbnailURL != "" && isMediaURL postView.post.thumbnailURL then
    [postView.post.thumbnailURL]
  else
    []

/-! ## Type classification and filtering (internal/downloader) -/

/-- Model of downloader `determineMediaType`. -/
def determineMediaType (contentType url : String) : String :=
  let ct := toLowerStr contentType
  let u := toLowerStr url
  if strContains ct "image" || strHasSuffix u ".jpg" || strHasSuffix u ".jpeg" ||
     strHasSuffix u ".png" || strHasSuffix u ".gif" ||
     strHasSuffix u ".webp" || strHasSuffix u ".bmp" then "image"
  else if strContains ct "video" || strHasSuffix u ".mp4" || strHasSuffix u ".webm" ||
     strHasSuffix u ".mov" || strHasSuffix u ".avi" ||
     strHasSuffix u ".mkv" || strHasSuffix u ".m4v" then "video"
  else "other"

/-- Model of downloader `getFileExtension`: extension from the URL when present
(query parameters stripped), else derived from the content type, else ".bin". -/
def getFileExtension (contentType url : String) : String :=
  let urlExt := filepathExt url
  if urlExt != "" then ⟨takeUntilChar '?' urlExt.data⟩
  else
    let ct := toLowerStr contentType
    if strContains ct "jpeg" then ".jpg"
    else if strContains ct "png" then ".png"
    else if strContains ct "gif" then ".gif"
    else if strContains ct "webp" then ".webp"
    else if strContains ct "mp4" then ".mp4"
    else if strContains ct "webm" then ".webm"
    else ".bin"

/-- Model of downloader `ShouldDownload`: the caller-level per-type filter. -/
def ShouldDownload (url : String) (includeImages includeVideos includeOther : Bool) : Bool :=
  let mediaType := determineMediaType "" url
  if mediaType = "image" then includeImages
  else if mediaType = "video" then includeVideos
  else if mediaType = "other" then includeOther
  else false

/-! ## Directory-name sanitization and a lexical model of `filepath.Join` -/

/-- The nine invalid one-character substrings replaced by downloader `sanitizePath`. -/
def invalidPathChars : List Char := ['/', '\\', ':', '*', '?', '\"', '<', '>', '|']

/-- Replacement of a single character performed by `sanitizePath`. -/
def sanChar (c : Char) : Char := if invalidPathChars.contains c then '_' else c

/-- Model of downloader `sanitizePath`: each of the nine invalid substrings is a
single character, so the chain of `strings.ReplaceAll` calls equals this
character-wise map. -/
def sanitizePath (path : String) : String := ⟨path.data.map sanChar⟩

/-- Splits a character list at every slash; models the decomposition of a path
into its elements. -/
def splitOnSlash : List Char → List (List Char)
  | [] => [[]]
  | c :: rest =>
    match splitOnSlash rest with
    | [] => [[]]
    | h :: t => if c = '/' then [] :: h :: t else (c :: h) :: t

/-- Lexical path resolution as performed by Go `filepath.Clean` on
`base + "/" + rel`, on paths represented as lists of elements: empty elements
and "." are dropped, ".." removes the last element of the accumulated path
(the base is taken to be absolute, so ".." below the root stays at the root). -/
def cleanAppend (base : List (List Char)) (elems : List (List Char)) : List (List Char) :=
  elems.foldl
    (fun acc e =>
      if e = [] ∨ e = ['.'] then acc
      else if e = ['.', '.'] then acc.dropLast
      else acc ++ [e])
    base

/-- The destination directory used by `DownloadMedia` for a community, as the
list of path elements of `filepath.Join(baseDir, sanitizePath(name))`, with the
base directory given by its elements. -/
def communityDirElems (baseElems : List (List Char)) (communityName : String) :
    List (List Char) :=
  cleanAppend baseElems (splitOnSlash (sanitizePath communityName).data)

/-! ## Content store state (internal/database, tables relevant to media) -/

/-- The durable media store: the `scraped_media` rows, the files on disk
(path and byte content), and the next autoincrement id. -/
structure MediaStoreState where
  rows : List ScrapedMedia
  files : List (String × List Nat)
  nextId : Int
deriving DecidableEq, Repr

/-- Model of database `MediaExists`: is a row with this content hash present. -/
def MediaExists (st : MediaStoreState) (hash : String) : Bool :=
  st.rows.any (fun m => m.mediaHash == hash)

/-- Model of database `GetMediaByHash`: the first row with this content hash. -/
def GetMediaByHash (st : MediaStoreState) (hash : String) : Option ScrapedMedia :=
  st.rows.find? (fun m => m.mediaHash == hash)

/-- Model of database `SaveMedia`: insert the row, assign the autoincrement id
to the record (Go sets `media.ID` from the last insert id). -/
def SaveMedia (st : MediaStoreState) (m : ScrapedMedia) : ScrapedMedia × MediaStoreState :=
  let m2 := { m with id := st.nextId }
  (m2, { st with rows := st.rows ++ [m2], nextId := st.nextId + 1 })

/-- Model of `os.WriteFile`: creates or overwrites the file at `path`. -/
def writeFile (files : List (String × List Nat)) (path : String) (content : List Nat) :
    List (String × List Nat) :=
  files.filter (fun f => f.1 ≠ path) ++ [(path, content)]

/-- Model of `os.Remove` on a file path. -/
def removeFile (files : List (String × List Nat)) (path : String) :
    List (String × List Nat) :=
  files.filter (fun f => f.1 ≠ path)

/-! ## Downloader (internal/downloader `DownloadMedia`) -/

/-- An HTTP response as consumed by `DownloadMedia`: status code, Content-Type
header, and the body bytes. -/
structure HTTPResponse where
  status : Nat
  contentType : String
  body : List Nat
deriving DecidableEq, Repr

/-- The file name built by `DownloadMedia`: `postID_originalname`, falling back
to `postID` plus a derived extension when the name has no dot. -/
def mkFileName (postId : Int) (mediaURL : String) (fileExt : String) : String :=
  let originalName : String := ⟨takeUntilChar '?' (filepathBase mediaURL).data⟩
  let fileName := toString postId ++ "_" ++ originalName
  if !(strContains fileName ".") then toString postId ++ fileExt
  else fileName

/-- The full destination file path written by `DownloadMedia` (string level;
`filepath.Join` concatenation with separators). -/
def destFilePath (baseDir : String) (pv : PostView) (mediaURL contentType : String) : String :=
  baseDir ++ "/" ++ sanitizePath pv.community.name ++ "/" ++
    mkFileName pv.post.id mediaURL (getFileExtension contentType mediaURL)

/-- Model of downloader `DownloadMedia`.  The collaborators are explicit:
`hashFn` is the content fingerprint (SHA-256 in the source — any deterministic
function of the bytes), `fetch` the HTTP client, and `dbInsertOk` whether the
database insert of a new row succeeds (`false` models a storage failure);
`now` is the download timestamp.  Returns the Go pair `(*ScrapedMedia, error)`
as an `Except`, together with the resulting store state.  The branch where the
hash exists but no row is found is unreachable (both read the same rows). -/
def DownloadMedia (hashFn : List Nat → String) (fetch : String → Except String HTTPResponse)
    (dbInsertOk : Bool) (now : String) (baseDir : String) (st : MediaStoreState)
    (mediaURL : String) (pv : PostView) : Except String ScrapedMedia × MediaStoreState :=
  if mediaURL = "" then (.error "empty media URL", st)
  else
    match fetch mediaURL with
    | .error e => (.error ("failed to download media: " ++ e), st)
    | .ok resp =>
      if resp.status ≠ 200 then (.error "download failed with status", st)
      else
        let content := resp.body
        let hash := hashFn content
        if MediaExists st hash then
          match GetMediaByHash st hash with
          | some existing => (.ok existing, st)
          | none => (.error "failed to get existing media", st)
        else
          let mediaType := determineMediaType resp.contentType mediaURL
          let fileExt := getFileExtension resp.contentType mediaURL
          let fileName := mkFileName pv.post.id mediaURL fileExt
          let filePath := destFilePath baseDir pv mediaURL resp.contentType
          let st1 := { st with files := writeFile st.files filePath content }
          let m : ScrapedMedia :=
            { id := 0, postId := pv.post.id, postTitle := pv.post.name,
              communityName := pv.community.name, communityId := pv.community.id,
              authorName := pv.creator.name, authorId := pv.creator.id,
              mediaURL := mediaURL, mediaHash := hash,
              fileName := fileName, filePath := filePath,
              fileSize := (content.length : Int), mediaType := mediaType,
              postURL := mediaURL, postScore := pv.counts.score,
              postCreated := pv.post.published, downloadedAt := now }
          if dbInsertOk then
            let r := SaveMedia st1 m
            (.ok r.1, r.2)
          else
            (.error "failed to save media to database",
             { st1 with files := removeFile st1.files filePath })

/-! ## Ingestion controller (scraper.go `scrapePosts` / `scrapeWithPagination`) -/

/-- The scraper configuration fields the controller reads
(internal/config, `Config.Scraper`). -/
structure ScrapeConfig where
  maxPostsPerRun : Int
  stopAtSeenPosts : Bool
  skipSeenPosts : Bool
  seenPostsThreshold : Int
  enablePagination : Bool
  includeImages : Bool
  includeVideos : Bool
  includeOtherMedia : Bool
deriving DecidableEq, Repr

/-- Observable controller actions recorded by the model:
`markVisited postId mediaCount` is a `DB.MarkPostAsScraped` call. -/
inductive Action where
  | markVisited (postId : Int) (mediaCount : Nat)
deriving DecidableEq, Repr

/-- Accumulated per-page counters of `scrapePosts`, the consecutive-seen
counter, and the trace of ledger writes. -/
structure PageAcc where
  downloaded : Nat
  skipped : Nat
  errors : Nat
  seen : Nat
  trace : List Action
deriving DecidableEq, Repr

/-- Model of the per-candidate download loop inside `scrapePosts`: each URL is
first filtered by `ShouldDownload` (skip), then downloaded via the oracle `dl`;
an error whose message contains "already exists" counts as skipped, any other
error as an error, and a success as downloaded (also incrementing the post's
`mediaDownloaded` count `md`). -/
def mediaLoop (cfg : ScrapeConfig) (dl : String → PostView → Except String ScrapedMedia)
    (pv : PostView) (urls : List String) (acc : PageAcc) (md : Nat) : PageAcc × Nat :=
  match urls with
  | [] => (acc, md)
  | url :: rest =>
    if !(ShouldDownload url cfg.includeImages cfg.includeVideos cfg.includeOtherMedia) then
      mediaLoop cfg dl pv rest { acc with skipped := acc.skipped + 1 } md
    else
      match dl url pv with
      | .error msg =>
        if strContains msg "already exists" then
          mediaLoop cfg dl pv rest { acc with skipped := acc.skipped + 1 } md
        else
          mediaLoop cfg dl pv rest { acc with errors := acc.errors + 1 } md
      | .ok _ =>
        mediaLoop cfg dl pv rest { acc with downloaded := acc.downloaded + 1 } (md + 1)

/-- Media processing for one post: locate candidates, run the download loop,
then record `MarkPostAsScraped(post, mediaDownloaded)` (its own error is only
logged in the source, so the call is recorded unconditionally). -/
def processPostMedia (cfg : ScrapeConfig)
    (dl : String → PostView → Except String ScrapedMedia)
    (pv : PostView) (acc : PageAcc) : PageAcc :=
  let urls := extractMediaURLs pv
  let r := mediaLoop cfg dl pv urls acc 0
  { r.1 with trace := r.1.trace ++ [Action.markVisited pv.post.id r.2] }

/-- Model of the per-post loop of `scrapePosts`.  `ex` is the
`DB.PostExists` oracle; a ledger lookup error skips the post entirely
(`continue`).  Returns the final accumulator and the `shouldStop` flag. -/
def scrapePostsLoop (cfg : ScrapeConfig) (ex : Int → Except String Bool)
    (dl : String → PostView → Except String ScrapedMedia)
    (posts : List PostView) (acc : PageAcc) : PageAcc × Bool :=
  match posts with
  | [] => (acc, false)
  | pv :: rest =>
    match ex pv.post.id with
    | .error _ => scrapePostsLoop cfg ex dl rest acc
    | .ok true =>
      let sn1 := acc.seen + 1
      if cfg.stopAtSeenPosts ∧ (sn1 : Int) ≥ cfg.seenPostsThreshold then
        ({ acc with seen := sn1 }, true)
      else if cfg.skipSeenPosts || cfg.stopAtSeenPosts then
        scrapePostsLoop cfg ex dl rest { acc with skipped := acc.skipped + 1, seen := sn1 }
      else
        scrapePostsLoop cfg ex dl rest (processPostMedia cfg dl pv { acc with seen := sn1 })
    | .ok false =>
      scrapePostsLoop cfg ex dl rest (processPostMedia cfg dl pv { acc with seen := 0 })

/-- The six return values of `scrapePosts`:
downloaded, skipped, errors, postsReturned, consecutive-seen, shouldStop,
plus the trace of ledger writes. -/
structure PageResult where
  downloaded : Nat
  skipped : Nat
  errors : Nat
  postsReturned : Nat
  seen : Nat
  shouldStop : Bool
  trace : List Action
deriving DecidableEq, Repr

/-- Model of `scrapePosts`: a failed page fetch returns one error and
`shouldStop = true` with the incoming consecutive-seen count; otherwise the
per-post loop runs and `postsReturned` is the number of posts the page gave. -/
def scrapePosts (cfg : ScrapeConfig) (ex : Int → Except String Bool)
    (dl : String → PostView → Except String ScrapedMedia)
    (fetched : Except String (List PostView)) (currentSeen : Nat) : PageResult :=
  match fetched with
  | .error _ => ⟨0, 0, 1, 0, currentSeen, true, []⟩
  | .ok posts =>
    let r := scrapePostsLoop cfg ex dl posts ⟨0, 0, 0, currentSeen, []⟩
    ⟨r.1.downloaded, r.1.skipped, r.1.errors, posts.length, r.1.seen, r.2, r.1.trace⟩

/-- The in-memory run state of `scrapeWithPagination`. -/
structure RunState where
  page : Nat
  totalDownloaded : Nat
  totalSkipped : Nat
  totalErrors : Nat
  totalProcessed : Int
  consecutiveSeen : Nat
deriving DecidableEq, Repr

/-- Model of one iteration of the `scrapeWithPagination` loop.  `pages` is the
feed oracle taking the page number and the requested limit.  Returns the run
state after the iteration and whether the loop continues with another page:
it stops when the maximum is already reached (before fetching), when the page
signalled `shouldStop`, when the page returned fewer posts than requested, or
when pagination is disabled; otherwise the page number advances. -/
def scrapeIteration (cfg : ScrapeConfig) (ex : Int → Except String Bool)
    (dl : String → PostView → Except String ScrapedMedia)
    (pages : Nat → Int → Except String (List PostView)) (st : RunState) :
    RunState × Bool :=
  let remaining : Int := cfg.maxPostsPerRun - st.totalProcessed
  if remaining ≤ 0 then (st, false)
  else
    let limit : Int := min 50 remaining
    let r := scrapePosts cfg ex dl (pages st.page limit) st.consecutiveSeen
    let st1 : RunState :=
      ⟨st.page, st.totalDownloaded + r.downloaded, st.totalSkipped + r.skipped,
       st.totalErrors + r.errors, st.totalProcessed + (r.postsReturned : Int), r.seen⟩
    if r.shouldStop then (st1, false)
    else if (r.postsReturned : Int) < limit then (st1, false)
    else if !cfg.enablePagination then (st1, false)
    else ({ st1 with page := st.page + 1 }, true)

/-! ## Shared helper lemmas -/

/-- The empty string matches no extension and no media host. -/
theorem isMediaURL_empty : isMediaURL "" = false := by decide

/-- The guard `url != "" && isMediaURL url` used by `extractMediaURLs` is
equivalent to the classifier alone, because the classifier rejects "". -/
theorem extract_guard (u : String) : ((u != "") && isMediaURL u) = isMediaURL u := by
  by_cases h : u = ""
  · subst h; decide
  · have hb : (u != "") = true := by simpa using h
    rw [hb, Bool.true_and]

/-- A URL accepted by the classifier is nonempty. -/
theorem isMediaURL_ne_empty {u : String} (h : isMediaURL u = true) : u ≠ "" := by
  intro he
  subst he
  exact absurd h (by decide)

/-- A concrete post view used by witnesses: id 1 with the three URL fields. -/
def pvCase (u e t : String) : PostView :=
  ⟨⟨1, "p", u, t, e, "2024"⟩, ⟨2, "a"⟩, ⟨3, "c"⟩, ⟨4⟩⟩

/-! ## C2: locator output per qualification case -/

/-- C2: for every post the locator returns exactly `[primary]` when only the
primary URL passes the classifier, `[primary, embed]` when both pass,
`[embed]` when only the embedded-video URL passes, `[thumbnail]` when only the
thumbnail passes, `[]` when nothing passes; and when the primary or the
embedded-video URL passes, the thumbnail field is never consulted (the output
is independent of it). -/
theorem C2_locator_priority (pv : PostView) :
    (isMediaURL pv.post.url = true → isMediaURL pv.post.embedVideoURL = false →
      extractMediaURLs pv = [pv.post.url])
  ∧ (isMediaURL pv.post.url = true → isMediaURL pv.post.embedVideoURL = true →
      extractMediaURLs pv = [pv.post.url, pv.post.embedVideoURL])
  ∧ (isMediaURL pv.post.url = false → isMediaURL pv.post.embedVideoURL = true →
      extractMediaURLs pv = [pv.post.embedVideoURL])
  ∧ (isMediaURL pv.post.url = false → isMediaURL pv.post.embedVideoURL = false →
      isMediaURL pv.post.thumbnailURL = true →
      extractMediaURLs pv = [pv.post.thumbnailURL])
  ∧ (isMediaURL pv.post.url = false → isMediaURL pv.post.embedVideoURL = false →
      isMediaURL pv.post.thumbnailURL = false → extractMediaURLs pv = [])
  ∧ (∀ t, isMediaURL pv.post.url = true ∨ isMediaURL pv.post.embedVideoURL = true →
      extractMediaURLs { pv with post := { pv.post with thumbnailURL := t } } =
        extractMediaURLs pv) := by
  refine ⟨?_, ?_, ?_, ?_, ?_, ?_⟩
  · intro h1 h2
    simp [extractMediaURLs, h1, h2, isMediaURL_ne_empty h1]
  · intro h1 h2
    simp [extractMediaURLs, h1, h2, isMediaURL_ne_empty h1, isMediaURL_ne_empty h2]
  · intro h1 h2
    simp [extractMediaURLs, h1, h2, isMediaURL_ne_empty h2]
  · intro h1 h2 h3
    simp [extractMediaURLs, h1, h2, h3, isMediaURL_ne_empty h3]
  · intro h1 h2 h3
    simp [extractMediaURLs, h1, h2, h3]
  · intro t h
    rcases h with h | h
    · simp [extractMediaURLs, h, isMediaURL_ne_empty h]
    · have he := isMediaURL_ne_empty h
      by_cases h1 : isMediaURL pv.post.url = true
      · simp [extractMediaURLs, h1, h, isMediaURL_ne_empty h1, he]
      · simp [extractMediaURLs, eq_false_of_ne_true h1, h, he]

/-- C2 witness: the six cases of the locator contract at concrete posts. -/
theorem C2_locator_priority_witness :
    extractMediaURLs (pvCase "x.jpg" "" "t.png") = ["x.jpg"]
  ∧ extractMediaURLs (pvCase "x.jpg" "y.mp4" "t.png") = ["x.jpg", "y.mp4"]
  ∧ extractMediaURLs (pvCase "" "y.mp4" "") = ["y.mp4"]
  ∧ extractMediaURLs (pvCase "" "" "t.png") = ["t.png"]
  ∧ extractMediaURLs (pvCase "" "" "") = []
  ∧ extractMediaURLs
      { pvCase "x.jpg" "" "t.png" with
        post := { (pvCase "x.jpg" "" "t.png").post with thumbnailURL := "other" } } =
      extractMediaURLs (pvCase "x.jpg" "" "t.png") :=
  ⟨(C2_locator_priority (pvCase "x.jpg" "" "t.png")).1 (by decide) (by decide),
   (C2_locator_priority (pvCase "x.jpg" "y.mp4" "t.png")).2.1 (by decide) (by decide),
   (C2_locator_priority (pvCase "" "y.mp4" "")).2.2.1 (by decide) (by decide),
   (C2_locator_priority (pvCase "" "" "t.png")).2.2.2.1 (by decide) (by decide) (by decide),
   (C2_locator_priority (pvCase "" "" "")).2.2.2.2.1 (by decide) (by decide) (by decide),
   (C2_locator_priority (pvCase "x.jpg" "" "t.png")).2.2.2.2.2 "other" (Or.inl (by decide))⟩

/-! ## C9: duplicates in the locator output -/

/-- C9 counterexample: when the primary URL and the embedded-video URL are the
same string and both pass the classifier, the locator returns that URL twice,
so the candidate list does have a duplicate. -/
theorem C9_counterexample :
    isMediaURL "dup.jpg" = true
  ∧ extractMediaURLs (pvCase "dup.jpg" "dup.jpg" "") = ["dup.jpg", "dup.jpg"]
  ∧ ¬ (extractMediaURLs (pvCase "dup.jpg" "dup.jpg" "")).Nodup := by decide

/-- C9 amended: the candidate list has no duplicates provided the primary and
embedded-video URLs are different strings. -/
theorem C9_amended (pv : PostView) (h : pv.post.url ≠ pv.post.embedVideoURL) :
    (extractMediaURLs pv).Nodup := by
  unfold extractMediaURLs
  repeat' split
  all_goals simp [h]

/-- C9 witness: a post whose primary and embedded-video URLs differ. -/
theorem C9_amended_witness :
    (pvCase "x.jpg" "y.mp4" "").post.url ≠ (pvCase "x.jpg" "y.mp4" "").post.embedVideoURL
  ∧ (extractMediaURLs (pvCase "x.jpg" "y.mp4" "")).Nodup :=
  ⟨by decide, C9_amended (pvCase "x.jpg" "y.mp4" "") (by decide)⟩

/-! ## C8: sanitization and containment in the base directory -/

/-- The sanitizer never outputs a slash. -/
theorem sanChar_ne_slash (c : Char) : sanChar c ≠ '/' := by
  by_cases hc : invalidPathChars.contains c
  · rw [sanChar, if_pos hc]; decide
  · rw [sanChar, if_neg hc]
    intro h
    subst h
    exact hc (by decide)

/-- Only a dot sanitizes to a dot. -/
theorem sanChar_eq_dot {c : Char} (h : sanChar c = '.') : c = '.' := by
  by_cases hc : invalidPathChars.contains c
  · rw [sanChar, if_pos hc] at h
    exact absurd h (by decide)
  · rwa [sanChar, if_neg hc] at h

/-- No slash survives sanitization. -/
theorem slash_not_mem_sanitize (name : String) : '/' ∉ (sanitizePath name).data := by
  intro h
  rw [sanitizePath] at h
  simp only [List.mem_map] at h
  obtain ⟨a, _, ha⟩ := h
  exact sanChar_ne_slash a ha

/-- A slash-free character list splits into itself as a single path element. -/
theorem splitOnSlash_eq_single {l : List Char} (h : '/' ∉ l) : splitOnSlash l = [l] := by
  induction l with
  | nil => rfl
  | cons c rest ih =>
    have hc : c ≠ '/' := fun hcc => h (hcc ▸ List.mem_cons_self c rest)
    have hr : '/' ∉ rest := fun hm => h (List.mem_cons_of_mem _ hm)
    rw [splitOnSlash, ih hr]
    simp [hc]

/-- Only the literal name ".." sanitizes to "..". -/
theorem sanitize_eq_dotdot {name : String} (h : sanitizePath name = "..") : name = ".." := by
  obtain ⟨l⟩ := name
  have hdd : (".." : String).data = ['.', '.'] := rfl
  have hd : l.map sanChar = ['.', '.'] := by
    have h2 := congrArg String.data h
    rw [hdd] at h2
    exact h2
  cases l with
  | nil => simp at hd
  | cons a l2 =>
    cases l2 with
    | nil => simp at hd
    | cons b l3 =>
      cases l3 with
      | cons c l4 => simp at hd
      | nil =>
        simp only [List.map_cons, List.map_nil, List.cons.injEq, and_true] at hd
        rw [show (".." : String) = ⟨['.', '.']⟩ from rfl]
        rw [sanChar_eq_dot hd.1, sanChar_eq_dot hd.2]

/-- C8 counterexample: the community name ".." is unchanged by the sanitizer,
and `filepath.Join(baseDir, "..")` resolves to the parent of the base
directory — the destination directory escapes the base directory. -/
theorem C8_counterexample :
    sanitizePath ".." = ".."
  ∧ communityDirElems [['d', 'a', 't', 'a']] ".." = []
  ∧ ¬ ([['d', 'a', 't', 'a']] <+: communityDirElems [['d', 'a', 't', 'a']] "..") := by decide

/-- C8 amended: for every source-group name other than "..", the destination
directory stays inside the configured base directory (the base path is a
prefix of the resolved destination path). -/
theorem C8_amended (base : List (List Char)) (name : String) (h : name ≠ "..") :
    base <+: communityDirElems base name := by
  unfold communityDirElems
  rw [splitOnSlash_eq_single (slash_not_mem_sanitize name)]
  unfold cleanAppend
  simp only [List.foldl_cons, List.foldl_nil]
  by_cases h1 : (sanitizePath name).data = [] ∨ (sanitizePath name).data = ['.']
  · rw [if_pos h1]
  · rw [if_neg h1]
    by_cases h2 : (sanitizePath name).data = ['.', '.']
    · exact absurd (sanitize_eq_dotdot (String.ext h2)) h
    · rw [if_neg h2]
      exact List.prefix_append base _

/-- C8 witness: a group name with a slash is sanitized and stays inside the base. -/
theorem C8_amended_witness :
    ("my/community" ≠ "..")
  ∧ ([['d', 'a', 't', 'a']] <+: communityDirElems [['d', 'a', 't', 'a']] "my/community") :=
  ⟨by decide, C8_amended [['d', 'a', 't', 'a']] "my/community" (by decide)⟩

/-! ## C3: the dedup fast path and content-addressed uniqueness -/

/-- A store whose hash lookup succeeds yields a record from `GetMediaByHash`. -/
theorem exists_getMediaByHash {st : MediaStoreState} {h : String}
    (hex : MediaExists st h = true) : ∃ m, GetMediaByHash st h = some m := by
  unfold MediaExists at hex
  unfold GetMediaByHash
  rw [List.any_eq_true] at hex
  exact Option.isSome_iff_exists.mp (List.find?_isSome.mpr hex)

/-- A store whose hash lookup fails has no row with that hash. -/
theorem find?_none_of_not_mediaExists {st : MediaStoreState} {h : String}
    (hex : MediaExists st h = false) :
    st.rows.find? (fun m => m.mediaHash == h) = none := by
  unfold MediaExists at hex
  rw [List.any_eq_false] at hex
  rw [List.find?_eq_none]
  exact hex

/-- C3: when the fetched bytes hash to a fingerprint already present, acquire
returns the existing record and leaves the store untouched; consequently the
same byte content fetched from two different URLs yields exactly one media
record, and the second call returns the first record with no state change. -/
theorem C3_dedup :
    (∀ (hashFn : List Nat → String) (fetch : String → Except String HTTPResponse)
       (dbInsertOk : Bool) (now baseDir : String) (st : MediaStoreState)
       (url : String) (pv : PostView) (resp : HTTPResponse),
       url ≠ "" → fetch url = .ok resp → resp.status = 200 →
       MediaExists st (hashFn resp.body) = true →
       ∃ m, GetMediaByHash st (hashFn resp.body) = some m ∧
         DownloadMedia hashFn fetch dbInsertOk now baseDir st url pv = (.ok m, st))
  ∧ (∀ (hashFn : List Nat → String) (fetch : String → Except String HTTPResponse)
       (now baseDir : String) (st0 : MediaStoreState) (url1 url2 : String)
       (pv1 pv2 : PostView) (r1 r2 : HTTPResponse) (m1 : ScrapedMedia)
       (st1 : MediaStoreState),
       url1 ≠ "" → url2 ≠ "" → fetch url1 = .ok r1 → fetch url2 = .ok r2 →
       r1.status = 200 → r2.status = 200 → r2.body = r1.body →
       MediaExists st0 (hashFn r1.body) = false →
       DownloadMedia hashFn fetch true now baseDir st0 url1 pv1 = (.ok m1, st1) →
       DownloadMedia hashFn fetch true now baseDir st1 url2 pv2 = (.ok m1, st1) ∧
         st1.rows.length = st0.rows.length + 1) := by
  constructor
  · intro hashFn fetch dbOk now baseDir st url pv resp hurl hfetch hstatus hex
    obtain ⟨m, hm⟩ := exists_getMediaByHash hex
    refine ⟨m, hm, ?_⟩
    simp [DownloadMedia, hurl, hfetch, hstatus, hex, hm]
  · intro hashFn fetch now baseDir st0 url1 url2 pv1 pv2 r1 r2 m1 st1
      h1 h2 hf1 hf2 hs1 hs2 hbody hex hdl
    have hnone := find?_none_of_not_mediaExists hex
    simp only [DownloadMedia, SaveMedia] at hdl
    rw [if_neg h1, hf1] at hdl
    simp only [hs1, hex] at hdl
    simp only [ne_eq, not_true_eq_false, if_false, Bool.false_eq_true, if_true,
      Prod.mk.injEq, Except.ok.injEq] at hdl
    obtain ⟨hm1, hst1⟩ := hdl
    subst hm1
    subst hst1
    constructor
    · have hhash : hashFn r2.body = hashFn r1.body := by rw [hbody]
      simp [DownloadMedia, h2, hf2, hs2, hhash, MediaExists, GetMediaByHash,
        List.any_append, List.find?_append, hnone,
        List.any_eq_false.mp (by unfold MediaExists at hex; exact hex)]
    · simp

/-- A constant fingerprint function for witnesses (any deterministic function
of the bytes is admissible). -/
def hashW : List Nat → String := fun _ => "h"

/-- A fetch oracle for witnesses: every URL serves the single byte 7. -/
def fetchW : String → Except String HTTPResponse := fun _ => .ok ⟨200, "", [7]⟩

/-- The empty media store used by witnesses. -/
def stW0 : MediaStoreState := ⟨[], [], 1⟩

/-- The record created by downloading "u1.jpg" for `pvCase` into `stW0`. -/
def mW : ScrapedMedia :=
  ⟨1, 1, "p", "c", 3, "a", 2, "u1.jpg", "h", "1_u1.jpg", "d/c/1_u1.jpg", 1, "image",
   "u1.jpg", 4, "2024", "2025"⟩

/-- The store after downloading "u1.jpg" for `pvCase` into `stW0`. -/
def stW1 : MediaStoreState := ⟨[mW], [("d/c/1_u1.jpg", [7])], 2⟩

/-- C3 witness: two URLs serving the same single byte, starting from an empty
store: the first call inserts exactly one record, and a second call for a
different URL with the same bytes returns that record with no state change. -/
theorem C3_dedup_witness :
    (∃ m, GetMediaByHash stW1 "h" = some m ∧
        DownloadMedia hashW fetchW true "2025" "d" stW1 "u1.jpg" (pvCase "u1.jpg" "" "") =
          (.ok m, stW1))
  ∧ (DownloadMedia hashW fetchW true "2025" "d" stW1 "u2.png" (pvCase "u2.png" "" "") =
        (.ok mW, stW1)
     ∧ stW1.rows.length = stW0.rows.length + 1) :=
  ⟨C3_dedup.1 hashW fetchW true "2025" "d" stW1 "u1.jpg" (pvCase "u1.jpg" "" "")
      ⟨200, "", [7]⟩ (by decide) rfl rfl (by decide),
   C3_dedup.2 hashW fetchW "2025" "d" stW0 "u1.jpg" "u2.png"
      (pvCase "u1.jpg" "" "") (pvCase "u2.png" "" "") ⟨200, "", [7]⟩ ⟨200, "", [7]⟩
      mW stW1 (by decide) (by decide) rfl rfl rfl rfl rfl (by decide) rfl⟩

/-! ## C7: rollback of the file write when the database insert fails -/

/-- Removing the just-written path undoes the write (and clears any previous
file at that path, which the write had overwritten). -/
theorem removeFile_writeFile (files : List (String × List Nat)) (path : String)
    (content : List Nat) :
    removeFile (writeFile files path content) path = removeFile files path := by
  unfold removeFile writeFile
  rw [List.filter_append]
  simp [List.filter_filter]

/-- C7: when the database insert of a new record fails after the payload file
was written, acquire removes the written file — the store keeps its rows, and
the files are exactly the previous files minus any entry at the destination
path — and returns the storage error. -/
theorem C7_rollback (hashFn : List Nat → String) (fetch : String → Except String HTTPResponse)
    (now baseDir : String) (st : MediaStoreState) (url : String) (pv : PostView)
    (resp : HTTPResponse) (hurl : url ≠ "") (hfetch : fetch url = .ok resp)
    (hstatus : resp.status = 200) (hex : MediaExists st (hashFn resp.body) = false) :
    DownloadMedia hashFn fetch false now baseDir st url pv =
      (.error "failed to save media to database",
       ⟨st.rows, removeFile st.files (destFilePath baseDir pv url resp.contentType),
        st.nextId⟩) := by
  simp [DownloadMedia, hurl, hfetch, hstatus, hex, removeFile_writeFile]

/-- C7 witness: a failed insert into the empty store rolls the file back. -/
theorem C7_rollback_witness :
    ("u1.jpg" ≠ "")
  ∧ DownloadMedia hashW fetchW false "2025" "d" stW0 "u1.jpg" (pvCase "u1.jpg" "" "") =
      (.error "failed to save media to database",
       ⟨stW0.rows, removeFile stW0.files (destFilePath "d" (pvCase "u1.jpg" "" "") "u1.jpg" ""),
        stW0.nextId⟩) :=
  ⟨by decide,
   C7_rollback hashW fetchW "2025" "d" stW0 "u1.jpg" (pvCase "u1.jpg" "" "")
     ⟨200, "", [7]⟩ (by decide) rfl rfl (by decide)⟩

/-! ## C1: controller classification of acquire outcomes -/

/-- The post view of the C1 scenario. -/
def pvC1 : PostView :=
  ⟨⟨1, "post", "https://i.imgur.com/a.jpg", "", "", "2024"⟩, ⟨2, "alice"⟩, ⟨3, "pics"⟩, ⟨10⟩⟩

/-- A pre-existing media record whose fingerprint "h0" is already stored. -/
def mC1 : ScrapedMedia :=
  ⟨7, 42, "old", "pics", 3, "bob", 4, "https://other/b.png", "h0", "b.png",
   "base/pics/b.png", 3, "image", "https://other/b.png", 5, "2023", "2023"⟩

/-- The store of the C1 scenario: one record with fingerprint "h0". -/
def stC1 : MediaStoreState := ⟨[mC1], [], 8⟩

/-- A fingerprint function under which the fetched bytes collide with "h0"
(the same bytes were downloaded before from a different URL). -/
def hashC1 : List Nat → String := fun _ => "h0"

/-- The fetch oracle of the C1 scenario. -/
def fetchC1 : String → Except String HTTPResponse := fun _ => .ok ⟨200, "image/jpeg", [1, 2, 3]⟩

/-- The download collaborator as `scrapePosts` sees it in the C1 scenario. -/
def dlC1 : String → PostView → Except String ScrapedMedia :=
  fun u pv => (DownloadMedia hashC1 fetchC1 true "2025" "base" stC1 u pv).1

/-- A configuration with every media type enabled. -/
def cfgC1 : ScrapeConfig := ⟨100, false, false, 5, true, true, true, true⟩

/-- C1: at a candidate URL whose fetched bytes carry a fingerprint already
present in the store, acquire succeeds returning the pre-existing record with
no state change — and the controller therefore counts the duplicate as
downloaded (downloaded = 1, mediaDownloaded = 1), not as skipped (skipped = 0):
the "already exists" error branch of `scrapePosts` never fires because the
dedup fast path of `DownloadMedia` returns a nil error.  This contradicts the
claim that a pre-existing duplicate is counted as skipped. -/
theorem C1_duplicate_counted_as_downloaded :
    DownloadMedia hashC1 fetchC1 true "2025" "base" stC1 "https://i.imgur.com/a.jpg" pvC1 =
      (.ok mC1, stC1)
  ∧ extractMediaURLs pvC1 = ["https://i.imgur.com/a.jpg"]
  ∧ ShouldDownload "https://i.imgur.com/a.jpg" true true true = true
  ∧ mediaLoop cfgC1 dlC1 pvC1 ["https://i.imgur.com/a.jpg"] ⟨0, 0, 0, 0, []⟩ 0 =
      (⟨1, 0, 0, 0, []⟩, 1)
  ∧ processPostMedia cfgC1 dlC1 pvC1 ⟨0, 0, 0, 0, []⟩ =
      ⟨1, 0, 0, 0, [Action.markVisited 1 1]⟩ :=
  ⟨rfl, by decide, by decide, by decide, by decide⟩

/-! ## C4: the per-page posts-processed accounting -/

/-- A ledger oracle under which every post is new. -/
def exNew : Int → Except String Bool := fun _ => .ok false

/-- A download oracle that always fails with a transport error (unused by
posts without candidates). -/
def dlNone : String → PostView → Except String ScrapedMedia := fun _ _ => .error "network"

/-- A post with no URL fields: the locator returns no candidates for it. -/
def pvNoMedia : PostView := ⟨⟨21, "text post", "", "", "", "2024"⟩, ⟨2, "alice"⟩, ⟨3, "pics"⟩, ⟨10⟩⟩

/-- Configuration of the C4 scenario: maximum 10 posts, pagination on, no
seen-post flags, every media type enabled. -/
def cfgC4 : ScrapeConfig := ⟨10, false, false, 5, true, true, true, true⟩

/-- A feed whose every page is the single candidate-free post. -/
def pagesC4 : Nat → Int → Except String (List PostView) := fun _ _ => .ok [pvNoMedia]

/-- The initial run state. -/
def stR0 : RunState := ⟨1, 0, 0, 0, 0, 0⟩

/-- C4 counterexample: a page consisting of one new post with no actionable
media has downloaded = 0 and skipped = 0 (the post contributes no skip unit),
yet the cumulative posts-processed counter increases by 1, not by
downloaded + skipped = 0 — the controller adds the number of posts the page
returned. -/
theorem C4_counterexample :
    (scrapePosts cfgC4 exNew dlNone (pagesC4 1 10) 0).downloaded = 0
  ∧ (scrapePosts cfgC4 exNew dlNone (pagesC4 1 10) 0).skipped = 0
  ∧ (scrapePosts cfgC4 exNew dlNone (pagesC4 1 10) 0).postsReturned = 1
  ∧ stR0.totalProcessed = 0
  ∧ (scrapeIteration cfgC4 exNew dlNone pagesC4 stR0).1.totalProcessed = 1 := by decide

/-- C4 amended: the cumulative posts-processed counter increases by exactly the
number of posts the page returned, and a post with no actionable media
contributes nothing to the downloaded/skipped counters (only a ledger write). -/
theorem C4_amended :
    (∀ (cfg : ScrapeConfig) (ex : Int → Except String Bool)
       (dl : String → PostView → Except String ScrapedMedia)
       (pages : Nat → Int → Except String (List PostView)) (st : RunState),
       ¬(cfg.maxPostsPerRun - st.totalProcessed ≤ 0) →
       (scrapeIteration cfg ex dl pages st).1.totalProcessed =
         st.totalProcessed +
           ((scrapePosts cfg ex dl
               (pages st.page (min 50 (cfg.maxPostsPerRun - st.totalProcessed)))
               st.consecutiveSeen).postsReturned : Int))
  ∧ (∀ (cfg : ScrapeConfig) (ex : Int → Except String Bool)
       (dl : String → PostView → Except String ScrapedMedia)
       (pv : PostView) (rest : List PostView) (acc : PageAcc),
       ex pv.post.id = .ok false → extractMediaURLs pv = [] →
       scrapePostsLoop cfg ex dl (pv :: rest) acc =
         scrapePostsLoop cfg ex dl rest
           ⟨acc.downloaded, acc.skipped, acc.errors, 0,
            acc.trace ++ [Action.markVisited pv.post.id 0]⟩) := by
  constructor
  · intro cfg ex dl pages st h
    unfold scrapeIteration
    rw [if_neg h]
    dsimp only
    repeat' split
    all_goals rfl
  · intro cfg ex dl pv rest acc hex hurls
    simp [scrapePostsLoop, hex, processPostMedia, hurls, mediaLoop]

/-- C4 witness: the amended accounting at the concrete C4 scenario. -/
theorem C4_amended_witness :
    ((scrapeIteration cfgC4 exNew dlNone pagesC4 stR0).1.totalProcessed =
      stR0.totalProcessed +
        ((scrapePosts cfgC4 exNew dlNone
            (pagesC4 stR0.page (min 50 (cfgC4.maxPostsPerRun - stR0.totalProcessed)))
            stR0.consecutiveSeen).postsReturned : Int))
  ∧ (scrapePostsLoop cfgC4 exNew dlNone [pvNoMedia] ⟨0, 0, 0, 0, []⟩ =
      scrapePostsLoop cfgC4 exNew dlNone []
        ⟨0, 0, 0, 0, [] ++ [Action.markVisited pvNoMedia.post.id 0]⟩) :=
  ⟨C4_amended.1 cfgC4 exNew dlNone pagesC4 stR0 (by decide),
   C4_amended.2 cfgC4 exNew dlNone pvNoMedia [] ⟨0, 0, 0, 0, []⟩ rfl (by decide)⟩

/-! ## C5: stop/continue decisions of the pagination loop -/

/-- C5: when the cumulative maximum is not reached (before and after the page),
the page did not signal shouldStop, the page returned at least as many posts
as requested, and pagination is enabled, the controller advances to the next
page; and whenever a page returns fewer posts than requested, the controller
stops after that page (regardless of the cumulative maximum). -/
theorem C5_pagination :
    (∀ (cfg : ScrapeConfig) (ex : Int → Except String Bool)
       (dl : String → PostView → Except String ScrapedMedia)
       (pages : Nat → Int → Except String (List PostView)) (st : RunState),
       0 < cfg.maxPostsPerRun - st.totalProcessed →
       (scrapePosts cfg ex dl
           (pages st.page (min 50 (cfg.maxPostsPerRun - st.totalProcessed)))
           st.consecutiveSeen).shouldStop = false →
       st.totalProcessed +
           ((scrapePosts cfg ex dl
               (pages st.page (min 50 (cfg.maxPostsPerRun - st.totalProcessed)))
               st.consecutiveSeen).postsReturned : Int) < cfg.maxPostsPerRun →
       ¬(((scrapePosts cfg ex dl
               (pages st.page (min 50 (cfg.maxPostsPerRun - st.totalProcessed)))
               st.consecutiveSeen).postsReturned : Int) <
           min 50 (cfg.maxPostsPerRun - st.totalProcessed)) →
       cfg.enablePagination = true →
       (scrapeIteration cfg ex dl pages st).2 = true ∧
         (scrapeIteration cfg ex dl pages st).1.page = st.page + 1)
  ∧ (∀ (cfg : ScrapeConfig) (ex : Int → Except String Bool)
       (dl : String → PostView → Except String ScrapedMedia)
       (pages : Nat → Int → Except String (List PostView)) (st : RunState),
       0 < cfg.maxPostsPerRun - st.totalProcessed →
       ((scrapePosts cfg ex dl
           (pages st.page (min 50 (cfg.maxPostsPerRun - st.totalProcessed)))
           st.consecutiveSeen).postsReturned : Int) <
         min 50 (cfg.maxPostsPerRun - st.totalProcessed) →
       (scrapeIteration cfg ex dl pages st).2 = false) := by
  constructor
  · intro cfg ex dl pages st hpre hstop _hpost hret hpag
    unfold scrapeIteration
    rw [if_neg (not_le.mpr hpre)]
    dsimp only
    rw [hstop]
    simp only [Bool.false_eq_true, if_false, if_neg hret, hpag]
    simp
  · intro cfg ex dl pages st hpre hlt
    unfold scrapeIteration
    rw [if_neg (not_le.mpr hpre)]
    dsimp only
    by_cases hstop : (scrapePosts cfg ex dl
        (pages st.page (min 50 (cfg.maxPostsPerRun - st.totalProcessed)))
        st.consecutiveSeen).shouldStop = true
    · simp only [hstop, if_true]
    · simp only [Bool.not_eq_true] at hstop
      rw [hstop]
      simp only [Bool.false_eq_true, if_false, if_pos hlt]

/-- Configuration for the C5 continue case: maximum 100 posts. -/
def cfgC5 : ScrapeConfig := ⟨100, false, false, 5, true, true, true, true⟩

/-- A feed whose every page is 50 candidate-free posts. -/
def pages50 : Nat → Int → Except String (List PostView) :=
  fun _ _ => .ok (List.replicate 50 pvNoMedia)

/-- C5 witness: a full page of 50 advances to page 2; a page of 1 post when 10
were requested stops even though the maximum of 10 is not reached. -/
theorem C5_pagination_witness :
    ((scrapeIteration cfgC5 exNew dlNone pages50 stR0).2 = true ∧
      (scrapeIteration cfgC5 exNew dlNone pages50 stR0).1.page = stR0.page + 1)
  ∧ (scrapeIteration cfgC4 exNew dlNone pagesC4 stR0).2 = false :=
  ⟨C5_pagination.1 cfgC5 exNew dlNone pages50 stR0 (by decide) (by decide) (by decide)
     (by decide) rfl,
   C5_pagination.2 cfgC4 exNew dlNone pagesC4 stR0 (by decide) (by decide)⟩

/-! ## C6: the seen-post triage and stop-on-seen -/

/-- Configuration of the C6 scenario: stop-on-seen enabled, threshold 5. -/
def cfgC6 : ScrapeConfig := ⟨1000, true, false, 5, true, true, true, true⟩

/-- The ledger oracle of the C6 scenario: posts 3 through 7 already exist. -/
def exC6 : Int → Except String Bool := fun id => .ok (decide (3 ≤ id ∧ id ≤ 7))

/-- The ten candidate-free posts of the C6 scenario, ids 1 through 10. -/
def postsC6 : List PostView :=
  (List.range 10).map (fun i => ⟨⟨(i : Int) + 1, "t", "", "", "", "2024"⟩, ⟨2, "a"⟩, ⟨3, "c"⟩, ⟨0⟩⟩)

/-- C6: an already-visited post increments the consecutive-seen counter (in the
stop, skip and reprocess branches alike) and a new post resets it to zero; when
stop-on-seen is enabled and the incremented counter reaches the threshold, the
page loop returns `shouldStop = true` at once, leaving the remaining posts of
the page untouched; in particular, on a 10-post page whose posts 3–7 are
already visited with threshold 5, processing stops immediately after post 7
with only posts 1 and 2 marked visited and posts 8–10 unprocessed. -/
theorem C6_stop_on_seen :
    (∀ (cfg : ScrapeConfig) (ex : Int → Except String Bool)
       (dl : String → PostView → Except String ScrapedMedia)
       (pv : PostView) (rest : List PostView) (acc : PageAcc),
       ex pv.post.id = .ok true → cfg.stopAtSeenPosts = true →
       ((acc.seen + 1 : Nat) : Int) ≥ cfg.seenPostsThreshold →
       scrapePostsLoop cfg ex dl (pv :: rest) acc = ({ acc with seen := acc.seen + 1 }, true))
  ∧ (∀ (cfg : ScrapeConfig) (ex : Int → Except String Bool)
       (dl : String → PostView → Except String ScrapedMedia)
       (pv : PostView) (rest : List PostView) (acc : PageAcc),
       ex pv.post.id = .ok true →
       ¬(cfg.stopAtSeenPosts = true ∧ ((acc.seen + 1 : Nat) : Int) ≥ cfg.seenPostsThreshold) →
       (cfg.skipSeenPosts || cfg.stopAtSeenPosts) = true →
       scrapePostsLoop cfg ex dl (pv :: rest) acc =
         scrapePostsLoop cfg ex dl rest
           { acc with skipped := acc.skipped + 1, seen := acc.seen + 1 })
  ∧ (∀ (cfg : ScrapeConfig) (ex : Int → Except String Bool)
       (dl : String → PostView → Except String ScrapedMedia)
       (pv : PostView) (rest : List PostView) (acc : PageAcc),
       ex pv.post.id = .ok true → cfg.stopAtSeenPosts = false → cfg.skipSeenPosts = false →
       scrapePostsLoop cfg ex dl (pv :: rest) acc =
         scrapePostsLoop cfg ex dl rest
           (processPostMedia cfg dl pv { acc with seen := acc.seen + 1 }))
  ∧ (∀ (cfg : ScrapeConfig) (ex : Int → Except String Bool)
       (dl : String → PostView → Except String ScrapedMedia)
       (pv : PostView) (rest : List PostView) (acc : PageAcc),
       ex pv.post.id = .ok false →
       scrapePostsLoop cfg ex dl (pv :: rest) acc =
         scrapePostsLoop cfg ex dl rest (processPostMedia cfg dl pv { acc with seen := 0 }))
  ∧ scrapePosts cfgC6 exC6 dlNone (.ok postsC6) 0 =
      ⟨0, 4, 0, 10, 5, true, [Action.markVisited 1 0, Action.markVisited 2 0]⟩ := by
  refine ⟨?_, ?_, ?_, ?_, by decide⟩
  · intro cfg ex dl pv rest acc hex hstopflag hthr
    simp [scrapePostsLoop, hex, hstopflag, hthr]
    intro hlt
    exfalso
    omega
  · intro cfg ex dl pv rest acc hex hno hskip
    simp only [scrapePostsLoop, hex]
    rw [if_neg ?_, if_pos hskip]
    intro hand
    exact hno ⟨by simp [hand.1], hand.2⟩
  · intro cfg ex dl pv rest acc hex hstopflag hskipflag
    simp [scrapePostsLoop, hex, hstopflag, hskipflag]
  · intro cfg ex dl pv rest acc hex
    simp [scrapePostsLoop, hex]

/-- A seen post view with id 3 used by the C6 witness. -/
def pvSeen3 : PostView := ⟨⟨3, "t", "", "", "", "2024"⟩, ⟨2, "a"⟩, ⟨3, "c"⟩, ⟨0⟩⟩

/-- C6 witness: the four triage transitions and the 10-post scenario at
concrete inputs. -/
theorem C6_stop_on_seen_witness :
    scrapePostsLoop cfgC6 exC6 dlNone [pvSeen3] ⟨0, 4, 0, 4, []⟩ =
      ({ (⟨0, 4, 0, 4, []⟩ : PageAcc) with seen := 4 + 1 }, true)
  ∧ scrapePostsLoop cfgC6 exC6 dlNone [pvSeen3] ⟨0, 0, 0, 0, []⟩ =
      scrapePostsLoop cfgC6 exC6 dlNone []
        { (⟨0, 0, 0, 0, []⟩ : PageAcc) with skipped := 0 + 1, seen := 0 + 1 }
  ∧ scrapePostsLoop cfgC4 exC6 dlNone [pvSeen3] ⟨0, 0, 0, 0, []⟩ =
      scrapePostsLoop cfgC4 exC6 dlNone []
        (processPostMedia cfgC4 dlNone pvSeen3 { (⟨0, 0, 0, 0, []⟩ : PageAcc) with seen := 0 + 1 })
  ∧ scrapePostsLoop cfgC6 exC6 dlNone [pvNoMedia] ⟨0, 0, 0, 0, []⟩ =
      scrapePostsLoop cfgC6 exC6 dlNone []
        (processPostMedia cfgC6 dlNone pvNoMedia { (⟨0, 0, 0, 0, []⟩ : PageAcc) with seen := 0 })
  ∧ scrapePosts cfgC6 exC6 dlNone (.ok postsC6) 0 =
      ⟨0, 4, 0, 10, 5, true, [Action.markVisited 1 0, Action.markVisited 2 0]⟩ :=
  ⟨C6_stop_on_seen.1 cfgC6 exC6 dlNone pvSeen3 [] ⟨0, 4, 0, 4, []⟩ rfl rfl (by decide),
   C6_stop_on_seen.2.1 cfgC6 exC6 dlNone pvSeen3 [] ⟨0, 0, 0, 0, []⟩ rfl (by decide) rfl,
   C6_stop_on_seen.2.2.1 cfgC4 exC6 dlNone pvSeen3 [] ⟨0, 0, 0, 0, []⟩ rfl rfl rfl,
   C6_stop_on_seen.2.2.2.1 cfgC6 exC6 dlNone pvNoMedia [] ⟨0, 0, 0, 0, []⟩ rfl,
   C6_stop_on_seen.2.2.2.2⟩

/-! ## C10: a failed ledger existence check skips the post entirely -/

/-- C10: when the `PostExists` lookup for a post fails, the page loop continues
with the remaining posts and nothing else changes: counters, consecutive-seen
count and the ledger-write trace are those of the remaining posts alone — the
post is neither processed nor marked visited nor counted as an error. -/
theorem C10_ledger_error_skip (cfg : ScrapeConfig) (ex : Int → Except String Bool)
    (dl : String → PostView → Except String ScrapedMedia) (pv : PostView)
    (rest : List PostView) (acc : PageAcc) (msg : String)
    (h : ex pv.post.id = .error msg) :
    scrapePostsLoop cfg ex dl (pv :: rest) acc = scrapePostsLoop cfg ex dl rest acc := by
  simp [scrapePostsLoop, h]

/-- A ledger oracle that always fails. -/
def exErr : Int → Except String Bool := fun _ => .error "db failure"

/-- C10 witness: the failing lookup at a concrete one-post page. -/
theorem C10_ledger_error_skip_witness :
    exErr pvNoMedia.post.id = .error "db failure"
  ∧ scrapePostsLoop cfgC4 exErr dlNone [pvNoMedia] ⟨0, 0, 0, 0, []⟩ =
      scrapePostsLoop cfgC4 exErr dlNone [] ⟨0, 0, 0, 0, []⟩ :=
  ⟨rfl, C10_ledger_error_skip cfgC4 exErr dlNone pvNoMedia [] ⟨0, 0, 0, 0, []⟩ "db failure" rfl⟩

end LemmyScraper
